import Mathlib

/-
Shallow embedding of the jenca-authentication service
(authentication/authentication.py): the User model, the token and
password-hashing primitives it calls, the storage service it talks to over
HTTP, and the request handlers signup, login, logout and delete-user.
External collaborators (the storage service, bcrypt, and the flask-login
helpers) are modelled from the specification, as noted on each definition.
-/

set_option linter.unusedVariables false

namespace Jenca

/-- HTTP status code 200, mirroring requests.codes.OK. -/
def codes.OK : Nat := 200

/-- HTTP status code 201, mirroring requests.codes.CREATED. -/
def codes.CREATED : Nat := 201

/-- HTTP status code 400, mirroring requests.codes.BAD_REQUEST. -/
def codes.BAD_REQUEST : Nat := 400

/-- HTTP status code 401, mirroring requests.codes.UNAUTHORIZED. -/
def codes.UNAUTHORIZED : Nat := 401

/-- HTTP status code 404, mirroring requests.codes.NOT_FOUND. -/
def codes.NOT_FOUND : Nat := 404

/-- HTTP status code 409, mirroring requests.codes.CONFLICT. -/
def codes.CONFLICT : Nat := 409

/-- A user has an email address and a password hash (class User in
authentication.py). -/
structure User where
  email : String
  password_hash : String
deriving DecidableEq

/-- Process-wide secret key: authentication.py reads SECRET_KEY from the
environment, with the literal default secret used here. -/
def SECRET_KEY : String := "secret"

/-- Modelled from the spec: flask-login make_secure_token, the keyed MAC
with message email, passwordHash concatenated (AuthToken in the data model).
The MAC is idealized as the injective null-separated concatenation of the
key and the message parts: only determinism and injectivity in the message
are modelled, not one-wayness. -/
def make_secure_token (key arg1 arg2 : String) : String :=
  key ++ "\x00" ++ arg1 ++ "\x00" ++ arg2

/-- Secure token unique to this User with the current password_hash
(User.get_auth_token in authentication.py). -/
def User.get_auth_token (u : User) : String :=
  make_secure_token SECRET_KEY u.email u.password_hash

/-- Modelled from the spec: bcrypt generate_password_hash, a salted slow
hash whose salt is embedded in the output.  The digest is idealized as a
tagged encoding of the salt and the password: the hash format, determinism
per salt and the verification round trip are modelled, one-wayness is not.
The salt bcrypt draws at random is an explicit argument. -/
def generate_password_hash (salt password : String) : String :=
  "$2b$12$" ++ salt ++ "$" ++ password

/-- Modelled from the spec: bcrypt check_password_hash, which recomputes
using the salt and parameters embedded in the stored hash and compares;
it fails closed on a malformed hash value. -/
def check_password_hash (pw_hash password : String) : Bool :=
  pw_hash.data.take 7 == ("$2b$12$").data
    && pw_hash.data.drop (pw_hash.length - (password.length + 1)) == '$' :: password.data

/-- HTTP response of the storage GET users/(email) endpoint as consumed by
load_user_from_id: a status code and the user-record body fields (the body
fields are meaningful only on an OK status). -/
structure GetUserResponse where
  status : Nat
  email : String
  password_hash : String
deriving DecidableEq

/-- Storage service state: the list of stored user records.  The storage
service itself is not part of the authentication source; its operations
below are modelled from the spec, section 4.3. -/
abbrev Store := List User

/-- Modelled from the spec: getUserByEmail returns the stored User with the
given email or NotFound; lookup scans the stored records. -/
def Store.getUserByEmail (s : Store) (email : String) : Option User :=
  s.find? (fun u => u.email == email)

/-- Modelled from the spec: the HTTP response of GET users/(email) is OK
with the record body when the user exists and NOT_FOUND otherwise. -/
def Store.getUserResponse (s : Store) (email : String) : GetUserResponse :=
  match Store.getUserByEmail s email with
  | some u => ⟨codes.OK, u.email, u.password_hash⟩
  | none => ⟨codes.NOT_FOUND, email, ""⟩

/-- Modelled from the spec: createUser appends the record and reports
Created, or reports Conflict when the email already exists. -/
def Store.createUser (s : Store) (u : User) : Store × Nat :=
  match Store.getUserByEmail s u.email with
  | some _ => (s, codes.CONFLICT)
  | none => (s ++ [u], codes.CREATED)

/-- Modelled from the spec: deleteUser removes the record with the given
email or reports NotFound. -/
def Store.deleteUser (s : Store) (email : String) : Store × Nat :=
  match Store.getUserByEmail s email with
  | some _ => (s.filter (fun u => !(u.email == email)), codes.OK)
  | none => (s, codes.NOT_FOUND)

/-- Modelled from the spec: listUsers returns the sequence of stored
records, the body of GET users. -/
def Store.listUsers (s : Store) : List User := s

/-- Flask-Login user-loader callback (load_user_from_id in
authentication.py): issue GET users/(user_id) to storage and, on an OK
response, rebuild the User from the response body; otherwise return none. -/
def load_user_from_id (resp : GetUserResponse) : Option User :=
  if resp.status == codes.OK then
    some ⟨resp.email, resp.password_hash⟩
  else
    none

/-- Flask-Login token-loader callback (load_user_from_token in
authentication.py): walk the users listed by storage in order and return
the first one whose derived auth token equals the presented token, or none
when no token matches. -/
def load_user_from_token (users : List User) (auth_token : String) : Option User :=
  match users with
  | [] => none
  | details :: rest =>
    if User.get_auth_token details == auth_token then some details
    else load_user_from_token rest auth_token

/-- JSON response bodies produced by the handlers. -/
inductive Body where
  /-- a jsonify body with email and password fields -/
  | fields (email password : String)
  /-- a jsonify body with only an email field -/
  | emailOnly (email : String)
  /-- a jsonify error body with title and detail fields -/
  | error (title detail : String)
  /-- the empty JSON object returned by logout -/
  | emptyObj
  /-- the default 401 body flask-login sends when login_required rejects -/
  | loginRequired
deriving DecidableEq

/-- An HTTP response: status code and JSON body. -/
abbrev Response := Nat × Body

/-- Session state per client: anonymous, or authenticated as the user whose
id (email) flask-login stored in the session. -/
inductive Session where
  | Anonymous
  | Authenticated (email : String)
deriving DecidableEq

/-- Record POSTed to storage users by the signup handler. -/
structure CreateRequest where
  email : String
  password_hash : String
deriving DecidableEq

/-- Signup handler body after validation (signup in authentication.py,
lines 261-283), as a function of the request fields, the pre-check GET
response, the salt bcrypt draws, and the status code storage returned for
the POST users call.  It yields the HTTP response together with the record
POSTed to storage, if any.  The POST response is received and discarded by
the source, so createStatus is never consulted. -/
def signup (getResp : GetUserResponse) (createStatus : Nat) (salt email password : String) :
    Response × Option CreateRequest :=
  match load_user_from_id getResp with
  | some _ =>
    ((codes.CONFLICT,
      Body.error
        ("There is already a user with the given email address.")
        ("A user already exists with the email \"" ++ email ++ "\"")),
     none)
  | none =>
    let data : CreateRequest := ⟨email, generate_password_hash salt password⟩
    ((codes.CREATED, Body.fields email password), some data)

/-- Signup composed with the storage service: the pre-check GET hits the
store and, when the handler POSTs, the store create is applied and its
status handed back to the handler (which ignores it). -/
def signupSys (store : Store) (salt email password : String) :
    Response × Store × Option CreateRequest :=
  let getResp := Store.getUserResponse store email
  match (signup getResp codes.OK salt email password).snd with
  | none => ((signup getResp codes.OK salt email password).fst, store, none)
  | some req =>
    let created := Store.createUser store ⟨req.email, req.password_hash⟩
    ((signup getResp created.snd salt email password).fst, created.fst, some req)

/-- Result of the login handler: HTTP response, resulting session state,
the remember-token cookie issued if any, and whether flask-login was asked
to make the session persistent (the remember=True argument). -/
structure LoginResult where
  status : Nat
  body : Body
  session : Session
  remember_token : Option String
  remember : Bool
deriving DecidableEq

/-- Login handler body after validation (login in authentication.py, lines
175-195): look the user up via load_user_from_id; 404 when absent, 401 when
the password fails bcrypt verification, else log the user in with
remember=True, which sets the session to the user id and issues the
remember-token cookie User.get_auth_token. -/
def login (store : Store) (session : Session) (email password : String) : LoginResult :=
  match load_user_from_id (Store.getUserResponse store email) with
  | none =>
    ⟨codes.NOT_FOUND,
     Body.error
       ("The requested user does not exist.")
       ("No user exists with the email \"" ++ email ++ "\""),
     session, none, false⟩
  | some user =>
    if !(check_password_hash user.password_hash password) then
      ⟨codes.UNAUTHORIZED,
       Body.error
         ("An incorrect password was provided.")
         ("The password for the user \"" ++ email ++ "\" does not match the password provided."),
       session, none, false⟩
    else
      ⟨codes.OK, Body.fields email password,
       Session.Authenticated user.email, some user.get_auth_token, true⟩

/-- Logout handler (logout in authentication.py, lines 198-209) together
with its login_required guard.  The guard is modelled from the spec: with
no authenticated session flask-login rejects the request with 401 before
the handler body runs; otherwise the handler logs the user out and returns
the empty JSON object with OK. -/
def logout (session : Session) : Response × Session :=
  match session with
  | Session.Anonymous => ((codes.UNAUTHORIZED, Body.loginRequired), Session.Anonymous)
  | Session.Authenticated _ => ((codes.OK, Body.emptyObj), Session.Anonymous)

/-- Delete-user handler (specific_user_route in authentication.py, lines
224-239), as a function of the caller's session, the pre-check GET
response, the status storage returned for the DELETE call, and the email
path parameter.  The DELETE response is received and discarded by the
source, so deleteStatus is never consulted, and the session is never read:
the route has no login_required guard and no ownership check. -/
def specific_user_route (session : Session) (getResp : GetUserResponse)
    (deleteStatus : Nat) (email : String) : Response :=
  match load_user_from_id getResp with
  | none =>
    (codes.NOT_FOUND,
     Body.error
       ("The requested user does not exist.")
       ("No user exists with the email \"" ++ email ++ "\""))
  | some user =>
    (codes.OK, Body.emailOnly user.email)

/-- Delete-user handler composed with the storage service: the pre-check
GET hits the store and, when a user is found, the store delete is applied
and its status handed back to the handler (which ignores it). -/
def deleteSys (session : Session) (store : Store) (email : String) : Response × Store :=
  let getResp := Store.getUserResponse store email
  match load_user_from_id getResp with
  | none => (specific_user_route session getResp codes.NOT_FOUND email, store)
  | some _ =>
    let deleted := Store.deleteUser store email
    (specific_user_route session getResp deleted.snd email, deleted.fst)

/-- Looking a user up through the storage HTTP round trip is the storage
lookup itself: the handler-side parse of the GET response recovers exactly
getUserByEmail. -/
theorem load_user_from_id_getUserResponse (s : Store) (email : String) :
    load_user_from_id (Store.getUserResponse s email) = Store.getUserByEmail s email := by
  unfold Store.getUserResponse
  cases h : Store.getUserByEmail s email <;> rfl

/-- A user found by getUserByEmail carries the email it was looked up by. -/
theorem getUserByEmail_email {s : Store} {email : String} {u : User}
    (h : Store.getUserByEmail s email = some u) : u.email = email := by
  have hp := List.find?_some h
  simpa using hp

/-- Appending a fresh record with the looked-up email makes the lookup find
it, provided the email was absent before. -/
theorem getUserByEmail_append_singleton {s : Store} {email : String}
    (h : Store.getUserByEmail s email = none) (u : User) (hu : u.email = email) :
    Store.getUserByEmail (s ++ [u]) email = some u := by
  unfold Store.getUserByEmail at *
  rw [List.find?_append, h]
  simp [List.find?, hu]

/-- Filtering out every record with the looked-up email makes the lookup
come up empty. -/
theorem getUserByEmail_filter_self (s : Store) (email : String) :
    Store.getUserByEmail (s.filter (fun u => !(u.email == email))) email = none := by
  unfold Store.getUserByEmail
  rw [List.find?_eq_none]
  intro x hx
  have hmem := (List.mem_filter.mp hx).2
  simp at hmem ⊢
  exact hmem

/-- Character-list form of a generated password hash. -/
theorem generate_password_hash_data (salt password : String) :
    (generate_password_hash salt password).data
      = (("$2b$12$").data ++ salt.data) ++ '$' :: password.data := by
  unfold generate_password_hash
  rw [String.data_append, String.data_append, String.data_append, List.append_assoc]
  rfl

/-- Length of a generated password hash. -/
theorem generate_password_hash_length (salt password : String) :
    (generate_password_hash salt password).length = 8 + salt.length + password.length := by
  unfold generate_password_hash
  rw [String.length_append, String.length_append, String.length_append]
  have h7 : ("$2b$12$").length = 7 := rfl
  have h1 : ("$").length = 1 := rfl
  rw [h7, h1]
  omega

/-- Verification round trip of the modelled bcrypt primitives. -/
theorem check_generate (salt password : String) :
    check_password_hash (generate_password_hash salt password) password = true := by
  unfold check_password_hash
  rw [generate_password_hash_data, generate_password_hash_length]
  have hidx : 8 + salt.length + password.length - (password.length + 1)
      = (("$2b$12$").data ++ salt.data).length := by
    rw [List.length_append]
    have h7 : ("$2b$12$").data.length = 7 := rfl
    have hs : salt.length = salt.data.length := rfl
    omega
  rw [hidx, List.drop_left, List.append_assoc]
  have h7 : (7 : Nat) = ("$2b$12$").data.length := rfl
  rw [h7, List.take_left]
  simp

/-- A generated password hash is longer than the password, hence never the
password itself. -/
theorem generate_ne_password (salt password : String) :
    generate_password_hash salt password ≠ password := by
  intro h
  have hl := congrArg String.length h
  rw [generate_password_hash_length] at hl
  omega

/-- String append is left-cancellative. -/
theorem string_append_left_cancel {s t1 t2 : String} (h : s ++ t1 = s ++ t2) : t1 = t2 := by
  apply String.ext
  have h2 := congrArg String.data h
  rw [String.data_append, String.data_append] at h2
  exact List.append_cancel_left h2

/-- C1: the spec requires a Conflict answer from the storage createUser call
to be surfaced to the signup caller, but the handler discards the POST
response: at the race input where the pre-check finds no user and storage
answers the POST with Conflict, the handler still responds Created. -/
theorem c1_signup_created_despite_storage_conflict :
    (signup (Store.getUserResponse ([] : Store) ("alice@example.com")) codes.CONFLICT
        ("SALT") ("alice@example.com") ("secret")).fst
      = (codes.CREATED, Body.fields ("alice@example.com") ("secret")) := rfl

/-- C2: a login with an existing user and a password verifying against the
stored hash yields OK with an email-password body, an Authenticated session
for that email, the remember-token equal to the keyed MAC over the email
and the stored password hash, and the persistent remember flag. -/
theorem c2_login_success (store : Store) (session : Session) (email password : String)
    (user : User) (hfind : Store.getUserByEmail store email = some user)
    (hpw : check_password_hash user.password_hash password = true) :
    login store session email password
      = ⟨codes.OK, Body.fields email password, Session.Authenticated email,
         some (make_secure_token SECRET_KEY email user.password_hash), true⟩ := by
  have hload : load_user_from_id (Store.getUserResponse store email) = some user :=
    (load_user_from_id_getUserResponse store email).trans hfind
  have hemail := getUserByEmail_email hfind
  simp [login, hload, hpw, User.get_auth_token, hemail]

/-- C3: login looks the user up first: an unknown email yields the 404
error body without the password being consulted (the result is the same for
every password, and in particular never 401); a known email whose password
fails verification yields the 401 error body. -/
theorem c3_login_lookup_before_password (store : Store) (session : Session)
    (email password : String) :
    (Store.getUserByEmail store email = none →
       login store session email password
           = ⟨codes.NOT_FOUND,
              Body.error
                ("The requested user does not exist.")
                ("No user exists with the email \"" ++ email ++ "\""),
              session, none, false⟩
         ∧ (∀ password2 : String,
             login store session email password2 = login store session email password)
         ∧ (login store session email password).status ≠ codes.UNAUTHORIZED)
  ∧ (∀ user : User, Store.getUserByEmail store email = some user →
       check_password_hash user.password_hash password = false →
       login store session email password
         = ⟨codes.UNAUTHORIZED,
            Body.error
              ("An incorrect password was provided.")
              ("The password for the user \"" ++ email
                ++ "\" does not match the password provided."),
            session, none, false⟩) := by
  constructor
  · intro hnone
    have hload : load_user_from_id (Store.getUserResponse store email) = none :=
      (load_user_from_id_getUserResponse store email).trans hnone
    refine ⟨by simp [login, hload], fun password2 => by simp [login, hload], ?_⟩
    simp [login, hload, codes.NOT_FOUND, codes.UNAUTHORIZED]
  · intro user hfind hpw
    have hload : load_user_from_id (Store.getUserResponse store email) = some user :=
      (load_user_from_id_getUserResponse store email).trans hfind
    simp [login, hload, hpw]

/-- C4: logging out while anonymous is a 401 error and not a success;
logging out while authenticated yields OK with the empty object and an
anonymous session; an immediate second logout is again a 401 error. -/
theorem c4_logout_state_machine (email : String) :
    logout Session.Anonymous = ((codes.UNAUTHORIZED, Body.loginRequired), Session.Anonymous)
  ∧ (logout Session.Anonymous).fst.fst ≠ codes.OK
  ∧ logout (Session.Authenticated email) = ((codes.OK, Body.emptyObj), Session.Anonymous)
  ∧ logout (logout (Session.Authenticated email)).snd
      = ((codes.UNAUTHORIZED, Body.loginRequired), Session.Anonymous) :=
  ⟨rfl, by decide, rfl, rfl⟩

/-- C5: token resolution walks the listed users in order and returns the
first whose derived token equals the presented one; when no derived token
matches it returns none, resolving to an anonymous session. -/
theorem c5_token_resolution (users : List User) (auth_token : String) :
    load_user_from_token users auth_token
        = users.find? (fun u => User.get_auth_token u == auth_token)
      ∧ ((∀ u ∈ users, User.get_auth_token u ≠ auth_token) →
          load_user_from_token users auth_token = none) := by
  have hfind : load_user_from_token users auth_token
      = users.find? (fun u => User.get_auth_token u == auth_token) := by
    induction users with
    | nil => rfl
    | cons d rest ih =>
      cases h : (User.get_auth_token d == auth_token) with
      | true => simp [load_user_from_token, List.find?_cons, h]
      | false => simp [load_user_from_token, List.find?_cons, h, ih]
  refine ⟨hfind, fun h => ?_⟩
  rw [hfind, List.find?_eq_none]
  intro x hx
  simpa using h x hx

/-- C6: a signup for an email that already has a stored user yields the 409
error body for any password, issues no createUser request, and leaves the
store unchanged. -/
theorem c6_signup_existing_email (store : Store) (salt email password : String)
    (user : User) (hfind : Store.getUserByEmail store email = some user) :
    signupSys store salt email password
      = ((codes.CONFLICT,
          Body.error
            ("There is already a user with the given email address.")
            ("A user already exists with the email \"" ++ email ++ "\"")),
         store, none) := by
  have hload : load_user_from_id (Store.getUserResponse store email) = some user :=
    (load_user_from_id_getUserResponse store email).trans hfind
  simp [signupSys, signup, hload]

/-- C7: a signup for a fresh email responds Created with the email-password
body, and afterwards the storage lookup returns a user whose stored hash
verifies against the password and is not the password itself. -/
theorem c7_signup_new_user (store : Store) (salt email password : String)
    (hnone : Store.getUserByEmail store email = none) :
    (signupSys store salt email password).fst = (codes.CREATED, Body.fields email password)
  ∧ ∃ u : User,
      Store.getUserByEmail (signupSys store salt email password).snd.fst email = some u
      ∧ check_password_hash u.password_hash password = true
      ∧ u.password_hash ≠ password := by
  have hload : load_user_from_id (Store.getUserResponse store email) = none :=
    (load_user_from_id_getUserResponse store email).trans hnone
  have hsys : signupSys store salt email password
      = ((codes.CREATED, Body.fields email password),
         store ++ [⟨email, generate_password_hash salt password⟩],
         some ⟨email, generate_password_hash salt password⟩) := by
    simp [signupSys, signup, hload, Store.createUser, hnone]
  refine ⟨by rw [hsys], ⟨email, generate_password_hash salt password⟩, ?_,
    check_generate salt password, generate_ne_password salt password⟩
  rw [hsys]
  exact getUserByEmail_append_singleton hnone _ rfl

/-- C8: for every caller session, deleting an absent user yields the 404
error body and an unchanged store, while deleting a present user yields OK
with the email body and afterwards the storage lookup for that email is
empty. -/
theorem c8_delete_user (session : Session) (store : Store) (email : String) :
    (Store.getUserByEmail store email = none →
       deleteSys session store email
         = ((codes.NOT_FOUND,
             Body.error
               ("The requested user does not exist.")
               ("No user exists with the email \"" ++ email ++ "\"")),
            store))
  ∧ (∀ user : User, Store.getUserByEmail store email = some user →
       (deleteSys session store email).fst = (codes.OK, Body.emailOnly email)
       ∧ Store.getUserByEmail (deleteSys session store email).snd email = none) := by
  constructor
  · intro hnone
    have hload : load_user_from_id (Store.getUserResponse store email) = none :=
      (load_user_from_id_getUserResponse store email).trans hnone
    simp [deleteSys, specific_user_route, hload]
  · intro user hfind
    have hload : load_user_from_id (Store.getUserResponse store email) = some user :=
      (load_user_from_id_getUserResponse store email).trans hfind
    have hemail := getUserByEmail_email hfind
    have hd : deleteSys session store email
        = ((codes.OK, Body.emailOnly user.email),
           store.filter (fun u => !(u.email == email))) := by
      simp [deleteSys, specific_user_route, hload, Store.deleteUser, hfind]
    rw [hd]
    exact ⟨by rw [hemail], getUserByEmail_filter_self store email⟩

/-- C9: the auth-token derivation is deterministic, and for a fixed email
two distinct password hashes derive distinct tokens. -/
theorem c9_token_deterministic_and_hash_sensitive :
    (∀ email pw_hash : String,
       User.get_auth_token ⟨email, pw_hash⟩ = User.get_auth_token ⟨email, pw_hash⟩)
  ∧ (∀ email hash1 hash2 : String, hash1 ≠ hash2 →
       User.get_auth_token ⟨email, hash1⟩ ≠ User.get_auth_token ⟨email, hash2⟩) := by
  refine ⟨fun _ _ => rfl, fun email hash1 hash2 hne he => hne ?_⟩
  unfold User.get_auth_token make_secure_token at he
  exact string_append_left_cancel he

/-- C10: once the pre-lookup has found a user, the delete handler responds
OK with that user's email whatever status the storage DELETE call returns:
the handler never inspects the delete response. -/
theorem c10_delete_ignores_delete_response (session : Session) (getResp : GetUserResponse)
    (deleteStatus : Nat) (email : String) (user : User)
    (h : load_user_from_id getResp = some user) :
    specific_user_route session getResp deleteStatus email
        = (codes.OK, Body.emailOnly user.email)
      ∧ ∀ deleteStatus2 : Nat,
          specific_user_route session getResp deleteStatus2 email
            = specific_user_route session getResp deleteStatus email := by
  constructor
  · simp [specific_user_route, h]
  · intro deleteStatus2
    simp [specific_user_route, h]

/-- Sample password hash used to evaluate the theorems on concrete input. -/
def aliceHash : String := generate_password_hash ("SALT") ("secret")

/-- Sample user record used to evaluate the theorems on concrete input. -/
def alice : User := User.mk ("alice@example.com") aliceHash

/-- Sample store holding the one sample record. -/
def sampleStore : Store := [alice]

/-- Witness for C2 at a concrete store, user and password. -/
theorem c2_witness :
    login sampleStore Session.Anonymous ("alice@example.com") ("secret")
      = ⟨codes.OK, Body.fields ("alice@example.com") ("secret"),
         Session.Authenticated ("alice@example.com"),
         some (make_secure_token SECRET_KEY ("alice@example.com") aliceHash), true⟩ :=
  c2_login_success sampleStore Session.Anonymous ("alice@example.com") ("secret") alice
    (by decide) (by decide)

/-- Witness for C3: an unknown email at a concrete store and a wrong
password for the sample user. -/
theorem c3_witness :
    login ([] : Store) Session.Anonymous ("alice@example.com") ("secret")
        = ⟨codes.NOT_FOUND,
           Body.error
             ("The requested user does not exist.")
             ("No user exists with the email \"" ++ ("alice@example.com") ++ "\""),
           Session.Anonymous, none, false⟩
      ∧ login sampleStore Session.Anonymous ("alice@example.com") ("wrong")
        = ⟨codes.UNAUTHORIZED,
           Body.error
             ("An incorrect password was provided.")
             ("The password for the user \"" ++ ("alice@example.com")
               ++ "\" does not match the password provided."),
           Session.Anonymous, none, false⟩ :=
  ⟨((c3_login_lookup_before_password ([] : Store) Session.Anonymous ("alice@example.com")
      ("secret")).1 (by decide)).1,
   (c3_login_lookup_before_password sampleStore Session.Anonymous ("alice@example.com")
      ("wrong")).2 alice (by decide) (by decide)⟩

/-- Witness for C5 at a concrete store and a token no user derives. -/
theorem c5_witness :
    load_user_from_token sampleStore ("fake")
        = List.find? (fun u => User.get_auth_token u == ("fake")) sampleStore
      ∧ load_user_from_token sampleStore ("fake") = none :=
  ⟨(c5_token_resolution sampleStore ("fake")).1,
   (c5_token_resolution sampleStore ("fake")).2 (by decide)⟩

/-- Witness for C6 at a concrete store with the email taken and a different
password. -/
theorem c6_witness :
    signupSys sampleStore ("SALT2") ("alice@example.com") ("different")
      = ((codes.CONFLICT,
          Body.error
            ("There is already a user with the given email address.")
            ("A user already exists with the email \""
              ++ ("alice@example.com") ++ "\"")),
         sampleStore, none) :=
  c6_signup_existing_email sampleStore ("SALT2") ("alice@example.com") ("different") alice
    (by decide)

/-- Witness for C7 at the empty store. -/
theorem c7_witness :
    (signupSys ([] : Store) ("SALT") ("alice@example.com") ("secret")).fst
        = (codes.CREATED, Body.fields ("alice@example.com") ("secret"))
      ∧ Store.getUserByEmail
          (signupSys ([] : Store) ("SALT") ("alice@example.com") ("secret")).snd.fst
          ("alice@example.com")
        = some (User.mk ("alice@example.com") (generate_password_hash ("SALT") ("secret")))
      ∧ check_password_hash (generate_password_hash ("SALT") ("secret")) ("secret") = true
      ∧ generate_password_hash ("SALT") ("secret") ≠ ("secret") :=
  ⟨(c7_signup_new_user ([] : Store) ("SALT") ("alice@example.com") ("secret")
      (by decide)).1,
   by decide, by decide, by decide⟩

/-- Witness for C8: an absent user at the empty store, a present user at
the sample store, both with an anonymous caller. -/
theorem c8_witness :
    deleteSys Session.Anonymous ([] : Store) ("alice@example.com")
        = ((codes.NOT_FOUND,
            Body.error
              ("The requested user does not exist.")
              ("No user exists with the email \"" ++ ("alice@example.com") ++ "\"")),
           ([] : Store))
      ∧ (deleteSys Session.Anonymous sampleStore ("alice@example.com")).fst
          = (codes.OK, Body.emailOnly ("alice@example.com"))
      ∧ Store.getUserByEmail
          (deleteSys Session.Anonymous sampleStore ("alice@example.com")).snd
          ("alice@example.com")
        = none :=
  ⟨(c8_delete_user Session.Anonymous ([] : Store) ("alice@example.com")).1 (by decide),
   ((c8_delete_user Session.Anonymous sampleStore ("alice@example.com")).2 alice
      (by decide)).1,
   ((c8_delete_user Session.Anonymous sampleStore ("alice@example.com")).2 alice
      (by decide)).2⟩

/-- Witness for C9 at two concrete distinct hashes. -/
theorem c9_witness :
    User.get_auth_token ⟨("email"), ("password_hash")⟩
      ≠ User.get_auth_token ⟨("email"), ("different_hash")⟩ :=
  c9_token_deterministic_and_hash_sensitive.2 ("email") ("password_hash")
    ("different_hash") (by decide)

/-- Witness for C10 at the sample store's GET response and two delete
statuses. -/
theorem c10_witness :
    specific_user_route Session.Anonymous
        (Store.getUserResponse sampleStore ("alice@example.com"))
        codes.NOT_FOUND ("alice@example.com")
      = (codes.OK, Body.emailOnly (alice.email))
  ∧ specific_user_route Session.Anonymous
        (Store.getUserResponse sampleStore ("alice@example.com"))
        (999) ("alice@example.com")
      = specific_user_route Session.Anonymous
          (Store.getUserResponse sampleStore ("alice@example.com"))
          codes.NOT_FOUND ("alice@example.com") :=
  ⟨(c10_delete_ignores_delete_response Session.Anonymous
      (Store.getUserResponse sampleStore ("alice@example.com"))
      codes.NOT_FOUND ("alice@example.com") alice (by decide)).1,
   (c10_delete_ignores_delete_response Session.Anonymous
      (Store.getUserResponse sampleStore ("alice@example.com"))
      codes.NOT_FOUND ("alice@example.com") alice (by decide)).2 (999)⟩

end Jenca
